import Mathlib

/-!
Verification of the schema-driven launcher (`nf_core/launch.py`).

The Python module is embedded shallowly: JSON-ish runtime values become the
inductive `Value`, Python dicts become insertion-ordered association lists
(`List (String × α)`), raised exceptions become `Except String`, and the
interactive prompt primitive is modelled by an oracle list of user events.
Every definition mirrors the corresponding function of the source file;
line numbers in the doc comments refer to `nf_core/launch.py`.
-/

set_option maxRecDepth 10000
set_option linter.unusedVariables false

namespace NfLaunch

/-- Python runtime values that flow through the launcher: JSON strings,
booleans, integers, floats (modelled as rationals) and `None`. -/
inductive Value where
  | vstr (s : String)
  | vbool (b : Bool)
  | vint (n : Int)
  | vnum (q : Rat)
  | vnone
  deriving Repr, DecidableEq

instance {ε α : Type} [DecidableEq ε] [DecidableEq α] : DecidableEq (Except ε α) :=
  fun a b =>
    match a, b with
    | .ok x, .ok y =>
      if h : x = y then .isTrue (by rw [h]) else .isFalse (by simp [h])
    | .error x, .error y =>
      if h : x = y then .isTrue (by rw [h]) else .isFalse (by simp [h])
    | .ok _, .error _ => .isFalse (by simp)
    | .error _, .ok _ => .isFalse (by simp)

/-- Numeric view used by Python `==` (a Python `bool` is an `int`). -/
def Value.toRatNum? : Value → Option Rat
  | .vbool b => some (if b then 1 else 0)
  | .vint n => some (n : Rat)
  | .vnum q => some q
  | _ => none

/-- Python `==` on the embedded values: numbers (and booleans) compare
numerically across types, strings compare to strings, `None` only to `None`. -/
def pyEq (a b : Value) : Bool :=
  match a.toRatNum?, b.toRatNum? with
  | some x, some y => decide (x = y)
  | _, _ =>
    match a, b with
    | .vstr s, .vstr t => decide (s = t)
    | .vnone, .vnone => true
    | _, _ => false

/-- Python `str.strip()`: remove leading and trailing whitespace.
(Structural implementation so that terms evaluate inside the kernel.) -/
def pyTrim (s : String) : String :=
  String.mk (((s.toList.dropWhile Char.isWhitespace).reverse.dropWhile
    Char.isWhitespace).reverse)

/-- Python `str.lower()` (ASCII fragment). -/
def pyLower (s : String) : String :=
  String.mk (s.toList.map Char.toLower)

/-- Value of `n` digit characters read left to right. -/
def digitsToNat (ds : List Char) : Nat :=
  ds.foldl (fun a c => a * 10 + (c.toNat - 48)) 0

/-- Consume an optional leading sign; `true` means negative. -/
def parseSign : List Char → Bool × List Char
  | '-' :: rest => (true, rest)
  | '+' :: rest => (false, rest)
  | cs => (false, cs)

/-- Model of Python `float(s)` on decimal literals: optional sign, digits
with an optional fraction part, optional exponent, surrounding whitespace
allowed.  (`inf`/`nan` literals are outside the modelled fragment.) -/
def pyFloat? (s : String) : Option Rat :=
  let cs := (pyTrim s).toList
  let (neg, cs1) := parseSign cs
  let ip := cs1.takeWhile Char.isDigit
  let cs2 := cs1.dropWhile Char.isDigit
  let (fp, cs3) :=
    match cs2 with
    | '.' :: rest => (rest.takeWhile Char.isDigit, rest.dropWhile Char.isDigit)
    | _ => ([], cs2)
  if ip.isEmpty && fp.isEmpty then none
  else
    -- integer-part digits followed by fraction digits, over 10^(fraction length)
    let m : Nat := digitsToNat (ip ++ fp)
    let mantissa : Rat :=
      if fp.isEmpty then (m : Rat) else (m : Rat) / ((10 : Rat) ^ fp.length)
    let base : Rat := if neg then -mantissa else mantissa
    match cs3 with
    | [] => some base
    | c :: rest =>
      if c = 'e' || c = 'E' then
        let (eneg, r1) := parseSign rest
        let eds := r1.takeWhile Char.isDigit
        let r2 := r1.dropWhile Char.isDigit
        if eds.isEmpty || !r2.isEmpty then none
        else
          let e := digitsToNat eds
          some (if eneg then base / ((10 : Rat) ^ e) else base * ((10 : Rat) ^ e))
      else none

/-- Model of Python `int(s)`: optional sign and decimal digits, surrounding
whitespace allowed. -/
def pyInt? (s : String) : Option Int :=
  let cs := (pyTrim s).toList
  let (neg, cs1) := parseSign cs
  if cs1.isEmpty || !(cs1.all Char.isDigit) then none
  else
    let n := digitsToNat cs1
    some (if neg then -(n : Int) else (n : Int))

/-- Python `float(v)` applied to an already-typed value. `none` stands for
an unconvertible value (Python raises `TypeError`). -/
def pyFloatOf? : Value → Option Rat
  | .vint n => some (n : Rat)
  | .vnum q => some q
  | .vbool b => some (if b then 1 else 0)
  | .vstr s => pyFloat? s
  | .vnone => none

/-- Render a rational the way Python prints the corresponding float, for
the finite decimal fractions the launcher can actually produce. -/
def ratDecimalString (q : Rat) : String :=
  match (List.range 41).find? (fun k => 10 ^ k % q.den = 0) with
  | none => toString q.num ++ "/" ++ toString q.den
  | some k =>
    let scaled : Nat := q.num.natAbs * (10 ^ k / q.den)
    let intPart := scaled / 10 ^ k
    let fracPart := scaled % 10 ^ k
    let fracStr :=
      if k = 0 then "0"
      else
        let ds := toString fracPart
        String.mk (List.replicate (k - ds.length) '0') ++ ds
    (if q.num < 0 then "-" else "") ++ toString intPart ++ "." ++ fracStr

/-- Python `str(v)`. -/
def pyStr : Value → String
  | .vstr s => s
  | .vbool true => "True"
  | .vbool false => "False"
  | .vint n => toString n
  | .vnum q => ratDecimalString q
  | .vnone => "None"

/-! ### Insertion-ordered dictionaries

Python dicts are modelled as association lists whose keys are unique and
which preserve insertion order. -/

/-- `d.get(k)` / `d[k]`: first entry with the given key. -/
def alookup {α : Type} : List (String × α) → String → Option α
  | [], _ => none
  | p :: rest, k => if p.1 = k then some p.2 else alookup rest k

/-- `d[k] = v`: replace in place when the key exists, append otherwise. -/
def dictInsert {α : Type} : List (String × α) → String → α → List (String × α)
  | [], k, v => [(k, v)]
  | p :: rest, k, v => if p.1 = k then (k, v) :: rest else p :: dictInsert rest k v

/-- `base.update(upd)` (Python dict update: left-to-right assignments). -/
def dictUpdate {α : Type} (base upd : List (String × α)) : List (String × α) :=
  upd.foldl (fun acc p => dictInsert acc p.1 p.2) base

/-- `del d[k]` once the key is known to be present. -/
def dictRemove {α : Type} (m : List (String × α)) (k : String) : List (String × α) :=
  m.filter (fun p => !(p.1 = k))

@[simp] theorem alookup_nil {α : Type} (k : String) : alookup ([] : List (String × α)) k = none := rfl

theorem alookup_cons {α : Type} (p : String × α) (rest : List (String × α)) (k : String) :
    alookup (p :: rest) k = if p.1 = k then some p.2 else alookup rest k := rfl

theorem alookup_dictInsert_self {α : Type} (m : List (String × α)) (k : String) (v : α) :
    alookup (dictInsert m k v) k = some v := by
  induction m with
  | nil => simp [dictInsert, alookup]
  | cons p rest ih =>
    by_cases h : p.1 = k
    · simp [dictInsert, h, alookup]
    · simp [dictInsert, h, alookup, ih]

theorem alookup_dictInsert_ne {α : Type} (m : List (String × α)) (k k' : String) (v : α)
    (h : k ≠ k') : alookup (dictInsert m k' v) k = alookup m k := by
  induction m with
  | nil => simp [dictInsert, alookup, Ne.symm h]
  | cons p rest ih =>
    by_cases hp : p.1 = k'
    · have hpk : ¬p.1 = k := by rw [hp]; exact Ne.symm h
      simp [dictInsert, hp, alookup, Ne.symm h, hpk]
    · by_cases hk : p.1 = k
      · simp [dictInsert, hp, alookup, hk, h]
      · simp [dictInsert, hp, alookup, hk, ih]

theorem alookup_dictInsert_isSome {α : Type} (m : List (String × α)) (k k' : String) (v : α)
    (h : (alookup m k).isSome) : (alookup (dictInsert m k' v) k).isSome := by
  by_cases hk : k = k'
  · subst hk; simp [alookup_dictInsert_self]
  · rwa [alookup_dictInsert_ne m k k' v hk]

theorem alookup_eq_none_not_mem {α : Type} (m : List (String × α)) (k : String)
    (h : alookup m k = none) : ∀ v, (k, v) ∉ m := by
  induction m with
  | nil => simp
  | cons p rest ih =>
    intro v hv
    rw [alookup_cons] at h
    by_cases hp : p.1 = k
    · simp [hp] at h
    · simp at hv
      rcases hv with hv | hv
      · exact hp (by rw [← hv])
      · exact ih (by simpa [hp] using h) v hv

theorem mem_alookup_of_nodup {α : Type} (m : List (String × α)) (k : String) (v : α)
    (hnd : (m.map Prod.fst).Nodup) (hm : (k, v) ∈ m) : alookup m k = some v := by
  induction m with
  | nil => simp at hm
  | cons p rest ih =>
    rw [List.map_cons, List.nodup_cons] at hnd
    rcases List.mem_cons.mp hm with hm | hm
    · rw [← hm]; simp [alookup_cons]
    · rw [alookup_cons]
      have hne : p.1 ≠ k := by
        intro he
        exact hnd.1 (he ▸ List.mem_map_of_mem Prod.fst hm)
      simp [hne]
      exact ih hnd.2 hm

/-! ### Schema model -/

/-- Leaf-level keys of a JSON-schema property (`launch.py` reads `type`,
`default`, `enum`, `pattern`, `minimum`, `maximum`, `hidden`,
`description`, `help_text`). -/
structure LeafSchema where
  ptype : String := "string"
  default : Option Value := none
  enum : Option (List String) := none
  pattern : Option String := none
  minimum : Option Value := none
  maximum : Option Value := none
  hidden : Bool := false
  description : Option String := none
  help_text : Option String := none
  deriving Repr

/-- A schema property: its leaf keys plus, for `type: object` groups, the
child properties and the group-level `required` list. -/
inductive PropSchema where
  | mk (leaf : LeafSchema) (properties : List (String × PropSchema))
      (required : List String)

def PropSchema.leaf : PropSchema → LeafSchema
  | .mk l _ _ => l

def PropSchema.properties : PropSchema → List (String × PropSchema)
  | .mk _ ps _ => ps

def PropSchema.required : PropSchema → List String
  | .mk _ _ r => r

def PropSchema.ptype (p : PropSchema) : String := p.leaf.ptype

/-- The whole pipeline schema object (the parts `launch.py` touches). -/
structure Schema where
  properties : List (String × PropSchema) := []
  required : List String := []

/-! ### Question descriptors (`single_param_to_pyinquirer`, lines 473-643)

The PyInquirer question dict: validators take the typed text and answer
Python-`True` or a reason string; filters take the raw value and produce
the typed value, or raise (modelled as `Except.error` with the exception
name). -/

/-- Result of a PyInquirer `validate` callback. -/
inductive VResult where
  | ok
  | err (msg : String)
  deriving Repr, DecidableEq

structure Question where
  qtype : String
  name : String
  message : String
  default : Option String := none
  choices : List String := []
  validate : Option (String → VResult) := none
  filter : Option (Value → Except String Value) := none

/-- `filter_boolean` (lines 525-528): booleans pass through, any other
value is lower-cased text compared against "true" (`AttributeError` on
non-strings). -/
def filter_boolean : Value → Except String Value
  | .vbool b => .ok (.vbool b)
  | .vstr s => .ok (.vbool (pyLower s == "true"))
  | _ => .error "AttributeError"

/-- `filter_number` (lines 547-550): whitespace-only text stays the empty
string, anything else is parsed as a float. -/
def filter_number : Value → Except String Value
  | .vstr s =>
    if pyTrim s = "" then .ok (.vstr "")
    else
      match pyFloat? s with
      | some q => .ok (.vnum q)
      | none => .error "ValueError"
  | _ => .error "AttributeError"

/-- `filter_integer` (lines 569-572). -/
def filter_integer : Value → Except String Value
  | .vstr s =>
    if pyTrim s = "" then .ok (.vstr "")
    else
      match pyInt? s with
      | some n => .ok (.vint n)
      | none => .error "ValueError"
  | _ => .error "AttributeError"

/-- `filter_range` (lines 594-597), same body as `filter_number`. -/
def filter_range : Value → Except String Value
  | .vstr s =>
    if pyTrim s = "" then .ok (.vstr "")
    else
      match pyFloat? s with
      | some q => .ok (.vnum q)
      | none => .error "ValueError"
  | _ => .error "AttributeError"

/-- `validate_number` (lines 534-542): empty (stripped) text passes,
otherwise the text must parse as a float. -/
def validate_number (s : String) : VResult :=
  if pyTrim s = "" then .ok
  else
    match pyFloat? s with
    | some _ => .ok
    | none => .err "Must be a number"

/-- `validate_integer` (lines 556-564): empty text passes, otherwise
`int(val)` must succeed and equal `float(val)`. -/
def validate_integer (s : String) : VResult :=
  if pyTrim s = "" then .ok
  else
    match pyInt? s, pyFloat? s with
    | some n, some q => if (n : Rat) = q then .ok else .err "Must be an integer"
    | _, _ => .err "Must be an integer"

/-- Maximum-bound half of `validate_range`. -/
def range_check_max (maximum : Option Value) (fval : Rat) : VResult :=
  match maximum with
  | none => .ok
  | some mv =>
    match pyFloatOf? mv with
    | none => .err "TypeError"
    | some m =>
      if m < fval then .err ("Must be less than or equal to " ++ pyStr mv) else .ok

/-- `validate_range` (lines 578-589): empty text passes, otherwise the
float must respect the optional `minimum`/`maximum` bounds.  (A
non-numeric bound makes Python raise `TypeError`; modelled as `err`.) -/
def validate_range (minimum maximum : Option Value) (s : String) : VResult :=
  if pyTrim s = "" then .ok
  else
    match pyFloat? s with
    | none => .err "Must be a number"
    | some fval =>
      match minimum with
      | none => range_check_max maximum fval
      | some mv =>
        match pyFloatOf? mv with
        | none => .err "TypeError"
        | some m =>
          if fval < m then .err ("Must be greater than or equal to " ++ pyStr mv)
          else range_check_max maximum fval

/-- `validate_enum` (lines 607-612). -/
def validate_enum (es : List String) (s : String) : VResult :=
  if s = "" then .ok
  else if es.contains s then .ok
  else .err ("Must be one of: " ++ String.intercalate ", " es)

/-- Is `needle` a prefix of `hay`? -/
def charListPrefix : List Char → List Char → Bool
  | [], _ => true
  | _ :: _, [] => false
  | a :: as, b :: bs => a = b && charListPrefix as bs

/-- Does `needle` occur contiguously inside `hay`? -/
def charListInfix (needle : List Char) : List Char → Bool
  | [] => needle.isEmpty
  | b :: bs => charListPrefix needle (b :: bs) || charListInfix needle bs

/-- Model of `re.search(pat, s) is not None` for the metacharacter-free
patterns exercised here: substring search. -/
def re_search (pat s : String) : Bool :=
  charListInfix pat.toList s.toList

/-- `validate_pattern` (lines 619-624). -/
def validate_pattern (pat : String) (s : String) : VResult :=
  if s = "" then .ok
  else if re_search pat s then .ok
  else .err ("Must match pattern: " ++ pat)

/-- Lines 488: the starting free-text question dict. -/
def question_base (param_id : String) : Question :=
  { qtype := "input", name := param_id, message := param_id }

/-- Lines 495-498: booleans become a True/False selection list with a
string default of "False". -/
def question_boolean_type (obj : LeafSchema) (q : Question) : Question :=
  if obj.ptype = "boolean" then
    { q with qtype := "list", choices := ["True", "False"], default := some "False" }
  else q

/-- Lines 500-517: resolve the (still Python-typed) default: schema
default, overridden by the current input value, overridden by an
already-collected session answer.  Boolean defaults arriving as strings
are coerced to real booleans. -/
def resolve_default (obj : LeafSchema) (input_params answers : List (String × Value))
    (param_id : String) (d0 : Option Value) : Option Value :=
  let d1 :=
    match obj.default with
    | none => d0
    | some dv =>
      if obj.ptype = "boolean" then
        match dv with
        | .vstr s => some (.vbool (pyLower s == "true"))
        | _ => some dv
      else some dv
  let d2 :=
    match alookup input_params param_id with
    | none => d1
    | some iv =>
      if obj.ptype = "boolean" then
        match iv with
        | .vstr s => some (.vbool ("true" == pyLower s))
        | _ => some iv
      else some iv
  match alookup answers param_id with
  | some av => some av
  | none => d2

/-- Lines 500-521: store the resolved default, coerced to a string. -/
def question_default (obj : LeafSchema) (input_params answers : List (String × Value))
    (param_id : String) (q : Question) : Question :=
  { q with default :=
      (resolve_default obj input_params answers param_id (q.default.map Value.vstr)).map pyStr }

/-- Lines 523-599: attach the per-type validator and output filter. -/
def question_filters (obj : LeafSchema) (q : Question) : Question :=
  let q := if obj.ptype = "boolean" then { q with filter := some filter_boolean } else q
  let q :=
    if obj.ptype = "number" then
      { q with validate := some validate_number, filter := some filter_number }
    else q
  let q :=
    if obj.ptype = "integer" then
      { q with validate := some validate_integer, filter := some filter_integer }
    else q
  if obj.ptype = "range" then
    { q with validate := some (validate_range obj.minimum obj.maximum),
             filter := some filter_range }
  else q

/-- Lines 601-614: an `enum` turns the question into a selection list and
replaces the validator. -/
def question_enum (obj : LeafSchema) (q : Question) : Question :=
  match obj.enum with
  | none => q
  | some es =>
    { q with qtype := "list", choices := es, validate := some (validate_enum es) }

/-- Lines 616-626: a `pattern` replaces the validator. -/
def question_pattern (obj : LeafSchema) (q : Question) : Question :=
  match obj.pattern with
  | none => q
  | some pat => { q with validate := some (validate_pattern pat) }

/-- Lines 628-641 (PyInquirer workaround): for list questions, move the
default to the front of the choices when present; otherwise only warn. -/
def question_list_default (q : Question) : Question :=
  if q.qtype = "list" then
    match q.default with
    | some d =>
      if q.choices.contains d then { q with choices := d :: q.choices.erase d }
      else q
    | none => q
  else q

/-- `single_param_to_pyinquirer` (lines 473-643).  `print_help` only
produces terminal output and does not influence the descriptor. -/
def single_param_to_pyinquirer (param_id : String) (obj : LeafSchema)
    (input_params answers : List (String × Value)) ( print_help : Bool) : Question :=
  question_list_default
    (question_pattern obj
      (question_enum obj
        (question_filters obj
          (question_default obj input_params answers param_id
            (question_boolean_type obj (question_base param_id))))))

/-! ### The fixed Nextflow-flag schema (lines 72-98) -/

/-- Child properties of the synthetic "Nextflow command-line flags" group.
(The `-work-dir` default is `os.getenv("NXF_WORK") or "./work"`; the model
fixes the unset-environment value `"./work"`.) -/
def nxf_flag_properties : List (String × LeafSchema) :=
  [("-name",
    { ptype := "string",
      description := some "Unique name for this nextflow run",
      pattern := some "^[a-zA-Z0-9-_]+$" }),
   ("-profile", { ptype := "string", description := some "Configuration profile" }),
   ("-work-dir",
    { ptype := "string",
      description := some "Work directory for intermediate files",
      default := some (.vstr "./work") }),
   ("-resume",
    { ptype := "boolean",
      description := some "Resume previous run, if found",
      help_text := some "Execute the script using the cached results, useful to continue executions that was stopped by an error",
      default := some (.vbool false) })]

/-- `self.nxf_flag_schema`: one synthetic group holding the engine flags. -/
def nxf_flag_schema : List (String × PropSchema) :=
  [("Nextflow command-line flags",
    .mk { ptype := "object",
          description := some "General Nextflow flags to control how the pipeline runs.",
          help_text := some "These are not specific to the pipeline and will not be saved in any parameter file. They are just used when building the `nextflow run` launch command." }
        (nxf_flag_properties.map (fun p => (p.1, .mk p.2 [] [])))
        [])]

/-- `merge_nxf_flag_schema` (lines 238-243): start from the flag schema
and `dict.update` the pipeline properties into it, so the flag group sits
first in iteration order. -/
def merge_nxf_flag_schema (pipeline_props : List (String × PropSchema)) :
    List (String × PropSchema) :=
  dictUpdate nxf_flag_schema pipeline_props

/-- Lines 381-388 of `prompt_schema`: partition the collected answers into
engine flags and workflow parameters.  The group's own heading key is
skipped; any key matching an engine-flag name goes to the flags map. -/
def split_answers (nxf_flags0 params_user0 : List (String × Value))
    (answers : List (String × Value)) :
    List (String × Value) × List (String × Value) :=
  answers.foldl
    (fun acc p =>
      if p.1 = "Nextflow command-line flags" then acc
      else if (alookup nxf_flag_properties p.1).isSome then
        (dictInsert acc.1 p.1 p.2, acc.2)
      else (acc.1, dictInsert acc.2 p.1 p.2))
    (nxf_flags0, params_user0)

/-! ### Web-form sanitisation (`sanitise_web_response`, lines 341-367) -/

/-- Lines 346-355: recompute a question descriptor for every leaf property
(children of `object` groups included), with `print_help=False`. -/
def build_pyinquirer_objects (props : List (String × PropSchema))
    (input_params : List (String × Value)) : List (String × Question) :=
  props.foldl
    (fun acc p =>
      if p.2.ptype = "object" then
        p.2.properties.foldl
          (fun acc2 c =>
            dictInsert acc2 c.1 (single_param_to_pyinquirer c.1 c.2.leaf input_params [] false))
          acc
      else
        dictInsert acc p.1 (single_param_to_pyinquirer p.1 p.2.leaf input_params [] false))
    []

/-- Lines 357-367, one map: walk the keys; entries whose stringified value
strips to the empty string are deleted, the remaining values are passed
through the property's filter when one exists.  (Keys are unique, so the
in-place Python loop is this traversal.) -/
def sanitise_params (qs : List (String × Question)) :
    List (String × Value) → Except String (List (String × Value))
  | [] => .ok []
  | (k, v) :: rest =>
    if pyTrim (pyStr v) = "" then sanitise_params qs rest
    else
      match (alookup qs k).bind Question.filter with
      | none =>
        match sanitise_params qs rest with
        | .error e => .error e
        | .ok tail => .ok ((k, v) :: tail)
      | some f =>
        match f v with
        | .error e => .error e
        | .ok v2 =>
          match sanitise_params qs rest with
          | .error e => .error e
          | .ok tail => .ok ((k, v2) :: tail)

/-- `sanitise_web_response` (lines 341-367) applied to the two maps
`self.nxf_flags` and `self.schema_obj.input_params`. -/
def sanitise_web_response (props : List (String × PropSchema))
    (nxf_flags input_params : List (String × Value)) :
    Except String (List (String × Value) × List (String × Value)) :=
  let qs := build_pyinquirer_objects props input_params
  match sanitise_params qs nxf_flags with
  | .error e => .error e
  | .ok fl =>
    match sanitise_params qs input_params with
    | .error e => .error e
    | .ok ip => .ok (fl, ip)

/-! ### Remote poll state machine (`get_web_launch_response`, lines 300-339) -/

/-- The launcher state the poll handler reads and writes. -/
structure LaunchState where
  nxf_flags : List (String × Value) := []
  input_params : List (String × Value) := []
  schema : Schema := {}
  cli_launch : Bool := true
  nextflow_cmd : String := ""
  pipeline : Value := .vnone
  revision : Value := .vnone
  web_schema_launch_api_url : String := ""

/-- A poll response body. `none` fields model missing JSON keys
(`KeyError` on access). -/
structure WebResponse where
  status : String
  message : Option String := none
  nxf_flags : Option (List (String × Value)) := none
  input_params : Option (List (String × Value)) := none
  schema : Option Schema := none
  cli_launch : Option Bool := none
  nextflow_cmd : Option String := none
  pipeline : Option Value := none
  revision : Option Value := none

/-- `web_response[key]`: a missing key raises, caught at line 325 and
re-raised as the `Missing return key` assertion. -/
def getKey {α : Type} (o : Option α) (key : String) : Except String α :=
  match o with
  | some a => .ok a
  | none => .error ("Missing return key from web API: \x27" ++ key ++ "\x27")

/-- Lines 312-322: adopt the completed-form payload.  Empty `nxf_flags` /
`input_params` mappings are not applied; the other five fields are taken
verbatim. -/
def adopt_launch_params (st : LaunchState) (resp : WebResponse) :
    Except String LaunchState := do
  let nf ← getKey resp.nxf_flags "nxf_flags"
  let st := if nf.length > 0 then { st with nxf_flags := nf } else st
  let ip ← getKey resp.input_params "input_params"
  let st := if ip.length > 0 then { st with input_params := ip } else st
  let sch ← getKey resp.schema "schema"
  let cl ← getKey resp.cli_launch "cli_launch"
  let nc ← getKey resp.nextflow_cmd "nextflow_cmd"
  let pl ← getKey resp.pipeline "pipeline"
  let rv ← getKey resp.revision "revision"
  return { st with schema := sch, cli_launch := cl, nextflow_cmd := nc,
                   pipeline := pl, revision := rv }

/-- `get_web_launch_response` (lines 300-339): one poll step.
`.ok (false, _)` = still waiting (the wait helper polls again),
`.ok (true, _)` = parameters adopted and sanitised, `.error` = the
`AssertionError` that aborts the launch. -/
def get_web_launch_response (st : LaunchState) (resp : WebResponse) :
    Except String (Bool × LaunchState) :=
  if resp.status = "error" then
    .error ("Got error from launch API ("
      ++ (match resp.message with | some m => m | none => "None") ++ ")")
  else if resp.status = "waiting_for_user" then .ok (false, st)
  else if resp.status = "launch_params_complete" then
    match adopt_launch_params st resp with
    | .error e => .error e
    | .ok st1 =>
      match sanitise_web_response st1.schema.properties st1.nxf_flags st1.input_params with
      | .error ename =>
        .error ("Unknown exception (" ++ ename ++ ") - see verbose log for details.")
      | .ok (fl, ip) => .ok (true, { st1 with nxf_flags := fl, input_params := ip })
  else
    .error ("Web launch GUI returned unexpected status (" ++ resp.status ++ "): "
      ++ st.web_schema_launch_api_url ++ "\n See verbose log for full response")

/-! ### Default stripping (`strip_default_params`, lines 659-670) -/

/-- `del m[k]`, raising `KeyError` when the key is absent. -/
def delKey (m : List (String × Value)) (k : String) :
    Except String (List (String × Value)) :=
  if (alookup m k).isSome then .ok (dictRemove m k) else .error "KeyError"

/-- Lines 662-665: delete every input parameter that still equals its
schema default (`input_params.get(param_id) == val`, with the usual
`None` result for absent keys). -/
def strip_input_defaults (schema_defaults input_params : List (String × Value)) :
    Except String (List (String × Value)) :=
  schema_defaults.foldlM
    (fun m p =>
      if pyEq ((alookup m p.1).getD .vnone) p.2 then delKey m p.1 else pure m)
    input_params

/-- Lines 667-670: delete every engine flag that equals the flag schema's
declared default (`val.get("default")`, `None` when undeclared). -/
def strip_flag_defaults (flag_props : List (String × LeafSchema))
    (nxf_flags : List (String × Value)) : List (String × Value) :=
  flag_props.foldl
    (fun m p =>
      if (alookup m p.1).isSome &&
          pyEq ((alookup m p.1).getD .vnone) (p.2.default.getD .vnone)
      then dictRemove m p.1 else m)
    nxf_flags

/-- Lines 168-170 of `launch_pipeline` around `strip_default_params`:
stripping runs only when `--save-all` was not given. -/
def launch_strip_defaults (save_all : Bool)
    (schema_defaults : List (String × Value))
    (flag_props : List (String × LeafSchema))
    (input_params nxf_flags : List (String × Value)) :
    Except String (List (String × Value) × List (String × Value)) :=
  if save_all then .ok (input_params, nxf_flags)
  else do
    let ip ← strip_input_defaults schema_defaults input_params
    return (ip, strip_flag_defaults flag_props nxf_flags)

/-! ### Command synthesis (`build_command`, lines 672-701) -/

/-- `val.replace('"', '\\"')`. -/
def escape_quotes (s : String) : String :=
  String.mk (s.toList.foldr
    (fun c acc => if c = '"' then '\\' :: c :: acc else c :: acc) [])

/-- Lines 675-682: append the core Nextflow flags.  A true boolean adds
its bare name, a false boolean adds nothing, any other value adds
`flag "value"` (`.replace` demands a string there: `AttributeError`
otherwise). -/
def build_nxf_flag_str (nxf_flags : List (String × Value)) : Except String String :=
  nxf_flags.foldlM
    (fun acc p =>
      match p.2 with
      | .vbool true => .ok (acc ++ " " ++ p.1)
      | .vbool false => .ok acc
      | .vstr s => .ok (acc ++ " " ++ p.1 ++ " \"" ++ escape_quotes s ++ "\"")
      | _ => .error "AttributeError")
    ""

/-- Lines 694-701: inline parameter flags.  A true boolean adds its bare
`--name`; *anything else* — false booleans included — adds
`--name "str(value)"` with embedded quotes escaped. -/
def build_params_inline (input_params : List (String × Value)) : String :=
  input_params.foldl
    (fun acc p =>
      match p.2 with
      | .vbool true => acc ++ " --" ++ p.1
      | v => acc ++ " --" ++ p.1 ++ " \"" ++ escape_quotes (pyStr v) ++ "\"")
    ""

/-- `build_command` (lines 672-701).  `params_out_rel` is the relative
path of the params file used in file mode. -/
def build_command (nextflow_cmd : String) (nxf_flags input_params : List (String × Value))
    (use_params_file : Bool) (params_out_rel : String) : Except String String := do
  let flagStr ← build_nxf_flag_str nxf_flags
  let cmd := nextflow_cmd ++ flagStr
  if input_params.length > 0 then
    if use_params_file then
      return cmd ++ " " ++ "-params-file" ++ " \"" ++ params_out_rel ++ "\""
    else
      return cmd ++ build_params_inline input_params
  else
    return cmd

/-! ### Interactive prompts (`prompt_param` lines 393-414,
`prompt_group` lines 416-471)

`PyInquirer.prompt` is modelled by an oracle list of events: `some v` is
the (already filtered) answer the user produced, `none` is the empty
answer dict that makes the launcher raise `KeyboardInterrupt`.  A `none`
overall result stands for a session that terminated without returning
(interrupt, or an exhausted oracle standing in for a prompt that blocks
forever). -/

/-- `prompt_param` (lines 393-414): required properties loop while the
answer is a whitespace-only string; an exactly-empty final answer yields
no entry at all. -/
def prompt_param (param_id : String) ( is_required : Bool) :
    List (Option Value) → Option (List (String × Value) × List (Option Value))
  | [] => none
  | none :: _ => none
  | some a :: rest =>
    if is_required &&
        (match a with | .vstr s => pyTrim s = "" | _ => false) then
      -- log.error("This property is required.") and re-prompt
      prompt_param param_id is_required rest
    else if pyEq a (.vstr "") then some ([], rest)
    else some ([(param_id, a)], rest)

/-- Lines 434-440: build the group menu choices; a child that is itself an
`object` aborts the whole group (`nf-core only supports groups 1-level
deep`), returning no answers. -/
def build_group_choices (show_hidden : Bool) :
    List (String × PropSchema) → Option (List String)
  | [] => some []
  | (cid, cobj) :: rest =>
    if cobj.ptype = "object" then none
    else
      match build_group_choices show_hidden rest with
      | none => none
      | some l =>
        some (if !cobj.leaf.hidden || show_hidden then cid :: l else l)

/-- Outcome of a group prompt: the collected answers, the `log.error`
messages emitted, and the unconsumed user events. -/
structure GroupResult where
  answers : List (String × Value)
  errors : List String
  rest : List (Option Value)
  deriving Repr, DecidableEq

/-- Lines 446-471: the perpetual group menu.  Each iteration consumes one
menu selection; "Continue >>" re-validates the group's required children
against the input values and session answers before exiting. -/
def prompt_group_loop (param_obj : PropSchema)
    (input_params : List (String × Value)) (fuel : Nat)
    (events : List (Option Value)) (answers : List (String × Value))
    (errs : List String) : Option GroupResult :=
  match fuel with
  | 0 => none
  | fuel + 1 =>
    match events with
    | [] => none
    | none :: _ => none
    | some sel :: rest =>
      if pyEq sel (.vstr "Continue >>") then
        let missing := param_obj.required.filter (fun p =>
          pyEq ((alookup input_params p).getD (.vstr "")) (.vstr "") &&
          pyEq ((alookup answers p).getD (.vstr "")) (.vstr ""))
        if missing.isEmpty then some ⟨answers, errs, rest⟩
        else
          prompt_group_loop param_obj input_params fuel rest answers
            (errs ++ missing.map (fun p => "\x27" ++ p ++ "\x27 is required."))
      else
        match sel with
        | .vstr c =>
          match alookup param_obj.properties c with
          | none => none   -- PyInquirer only ever returns one of the offered choices
          | some cobj =>
            match prompt_param c (param_obj.required.contains c) rest with
            | none => none
            | some (ans, rest2) =>
              prompt_group_loop param_obj input_params fuel rest2
                (dictUpdate answers ans) errs
        | _ => none

/-- `prompt_group` (lines 416-471).  A nested group short-circuits with an
error and no answers; a group whose children are all hidden is skipped. -/
def prompt_group (param_obj : PropSchema) (show_hidden : Bool)
    (input_params : List (String × Value)) (fuel : Nat)
    (events : List (Option Value)) : Option GroupResult :=
  match build_group_choices show_hidden param_obj.properties with
  | none => some ⟨[], ["nf-core only supports groups 1-level deep"], events⟩
  | some visible =>
    if visible.isEmpty then some ⟨[], [], events⟩
    else prompt_group_loop param_obj input_params fuel events [] []

/-! ### Spec-side variants

These two definitions follow the *specification text* rather than the
source; they exist only to compare against the code-derived definitions
above. -/

/-- Modelled from the spec (section 4.5 and claim C1): inline workflow
parameters are claimed to follow the same rule as engine flags, so a
false boolean would contribute nothing. -/
def build_params_inline_spec (input_params : List (String × Value)) : String :=
  input_params.foldl
    (fun acc p =>
      match p.2 with
      | .vbool true => acc ++ " --" ++ p.1
      | .vbool false => acc
      | v => acc ++ " --" ++ p.1 ++ " \"" ++ escape_quotes (pyStr v) ++ "\"")
    ""

/-- Modelled from the spec (section 4.3 and claim C4): first apply the
declared filter to each raw value, *afterwards* drop the properties whose
stripped value is the empty string. -/
def sanitise_params_spec (qs : List (String × Question)) :
    List (String × Value) → Except String (List (String × Value))
  | [] => .ok []
  | (k, v) :: rest => do
    let v' ←
      match (alookup qs k).bind Question.filter with
      | none => pure v
      | some f => f v
    let tail ← sanitise_params_spec qs rest
    if pyTrim (pyStr v') = "" then return tail else return ((k, v') :: tail)

/-- The spec-order variant of `sanitise_web_response`. -/
def sanitise_web_response_spec (props : List (String × PropSchema))
    (nxf_flags input_params : List (String × Value)) :
    Except String (List (String × Value) × List (String × Value)) := do
  let qs := build_pyinquirer_objects props input_params
  let fl ← sanitise_params_spec qs nxf_flags
  let ip ← sanitise_params_spec qs input_params
  return (fl, ip)

/-! ## Claim C1 — inline parameter synthesis -/

/-- C1 counterexample: in inline mode a *false* boolean workflow parameter
is not skipped (as it would be for engine flags, and as the claim states);
the code's `else` branch appends it as `--flagparam "False"`.  The
spec-side rule `build_params_inline_spec` predicts a bare command. -/
theorem c1_counterexample :
    build_command "nextflow run demo" [] [("flagparam", Value.vbool false)] false
        "nf-params.json"
      = Except.ok "nextflow run demo --flagparam \"False\"" ∧
    "nextflow run demo" ++ build_params_inline_spec [("flagparam", Value.vbool false)]
      = "nextflow run demo" ∧
    ("nextflow run demo --flagparam \"False\"" : String) ≠ "nextflow run demo" := by
  refine ⟨rfl, rfl, ?_⟩
  decide

/-- C1 (amended): in inline mode every workflow parameter is appended with
a double-hyphen prefix; a boolean that is true contributes only its bare
`--name`, while *any other value — a false boolean included — contributes
`--name "str(value)"`* with embedded double quotes backslash-escaped (so a
false boolean yields `--name "False"` rather than nothing). -/
theorem build_command_inline_amended :
    (∀ cmd ps p v out,
      build_command cmd [] ((p, v) :: ps) false out
        = Except.ok (cmd ++ build_params_inline ((p, v) :: ps))) ∧
    (∀ xs p v,
      build_params_inline (xs ++ [(p, v)])
        = build_params_inline xs ++
            match v with
            | .vbool true => " --" ++ p
            | v => " --" ++ p ++ " \"" ++ escape_quotes (pyStr v) ++ "\"") ∧
    (∀ p, build_params_inline [(p, Value.vbool false)]
        = " --" ++ p ++ " \"False\"") ∧
    (∀ p s, build_params_inline [(p, Value.vstr s)]
        = " --" ++ p ++ " \"" ++ escape_quotes s ++ "\"") := by
  refine ⟨?_, ?_, ?_, ?_⟩
  · intro cmd ps p v out
    show (if ((p, v) :: ps).length > 0 then _ else _ : Except String String) = _
    rw [if_pos (by simp)]
    show Except.ok (cmd ++ "" ++ build_params_inline ((p, v) :: ps)) = _
    rw [String.append_empty]
  · intro xs p v
    unfold build_params_inline
    rw [List.foldl_append]
    cases v with
    | vbool b => cases b <;> simp [String.append_assoc]
    | vstr s => simp [String.append_assoc]
    | vint n => simp [String.append_assoc]
    | vnum q => simp [String.append_assoc]
    | vnone => simp [String.append_assoc]
  · intro p
    show "" ++ " --" ++ p ++ " \"" ++ escape_quotes (pyStr (Value.vbool false)) ++ "\"" = _
    simp [String.append_assoc]
    rfl
  · intro p s
    rfl

/-! ## Question-compiler projection lemmas -/

theorem question_boolean_type_filter (obj : LeafSchema) (q : Question) :
    (question_boolean_type obj q).filter = q.filter := by
  unfold question_boolean_type
  split <;> rfl

theorem question_boolean_type_validate (obj : LeafSchema) (q : Question) :
    (question_boolean_type obj q).validate = q.validate := by
  unfold question_boolean_type
  split <;> rfl

theorem question_default_filter (obj : LeafSchema) (ip ans : List (String × Value))
    (pid : String) (q : Question) : (question_default obj ip ans pid q).filter = q.filter := rfl

theorem question_default_validate (obj : LeafSchema) (ip ans : List (String × Value))
    (pid : String) (q : Question) : (question_default obj ip ans pid q).validate = q.validate := rfl

theorem question_enum_filter (obj : LeafSchema) (q : Question) :
    (question_enum obj q).filter = q.filter := by
  unfold question_enum
  cases obj.enum <;> rfl

theorem question_enum_validate_none (obj : LeafSchema) (q : Question)
    (h : obj.enum = none) : (question_enum obj q).validate = q.validate := by
  unfold question_enum
  rw [h]

theorem question_pattern_filter (obj : LeafSchema) (q : Question) :
    (question_pattern obj q).filter = q.filter := by
  unfold question_pattern
  cases obj.pattern <;> rfl

theorem question_pattern_validate_none (obj : LeafSchema) (q : Question)
    (h : obj.pattern = none) : (question_pattern obj q).validate = q.validate := by
  unfold question_pattern
  rw [h]

theorem question_list_default_filter (q : Question) :
    (question_list_default q).filter = q.filter := by
  unfold question_list_default
  split
  · cases q.default with
    | none => rfl
    | some d => simp only; split <;> rfl
  · rfl

theorem question_list_default_validate (q : Question) :
    (question_list_default q).validate = q.validate := by
  unfold question_list_default
  split
  · cases q.default with
    | none => rfl
    | some d => simp only; split <;> rfl
  · rfl

theorem question_filters_boolean (obj : LeafSchema) (q : Question)
    (h : obj.ptype = "boolean") :
    (question_filters obj q).filter = some filter_boolean := by
  unfold question_filters
  rw [h]
  rfl

theorem question_filters_number (obj : LeafSchema) (q : Question)
    (h : obj.ptype = "number") :
    (question_filters obj q).validate = some validate_number ∧
    (question_filters obj q).filter = some filter_number := by
  unfold question_filters
  rw [h]
  exact ⟨rfl, rfl⟩

theorem question_filters_integer (obj : LeafSchema) (q : Question)
    (h : obj.ptype = "integer") :
    (question_filters obj q).validate = some validate_integer ∧
    (question_filters obj q).filter = some filter_integer := by
  unfold question_filters
  rw [h]
  exact ⟨rfl, rfl⟩

theorem question_filters_range (obj : LeafSchema) (q : Question)
    (h : obj.ptype = "range") :
    (question_filters obj q).validate = some (validate_range obj.minimum obj.maximum) ∧
    (question_filters obj q).filter = some filter_range := by
  unfold question_filters
  rw [h]
  exact ⟨rfl, rfl⟩

/-- The compiled filter of a question, through the whole pipeline. -/
theorem single_param_filter (pid : String) (obj : LeafSchema)
    (ip ans : List (String × Value)) (ph : Bool) :
    (single_param_to_pyinquirer pid obj ip ans ph).filter
      = (question_filters obj (question_default obj ip ans pid
          (question_boolean_type obj (question_base pid)))).filter := by
  unfold single_param_to_pyinquirer
  rw [question_list_default_filter, question_pattern_filter, question_enum_filter]

/-- The compiled validator, through the whole pipeline, when no `enum` and
no `pattern` override it. -/
theorem single_param_validate (pid : String) (obj : LeafSchema)
    (ip ans : List (String × Value)) (ph : Bool)
    (he : obj.enum = none) (hp : obj.pattern = none) :
    (single_param_to_pyinquirer pid obj ip ans ph).validate
      = (question_filters obj (question_default obj ip ans pid
          (question_boolean_type obj (question_base pid)))).validate := by
  unfold single_param_to_pyinquirer
  rw [question_list_default_validate, question_pattern_validate_none _ _ hp,
      question_enum_validate_none _ _ he]

/-! ## Claim C6 — boolean filter round-trip -/

/-- C6: every boolean property compiles to the `filter_boolean` output
filter; applying it to the string form of `v` (`str(True)`/`str(False)`)
returns `v` for both truth values, and on any text it yields true exactly
when the lower-cased input equals "true". -/
theorem boolean_filter_roundtrip (pid : String) (obj : LeafSchema)
    (ip ans : List (String × Value)) (ph : Bool) (h : obj.ptype = "boolean") :
    (single_param_to_pyinquirer pid obj ip ans ph).filter = some filter_boolean ∧
    (∀ b, filter_boolean (.vstr (pyStr (.vbool b))) = .ok (.vbool b)) ∧
    (∀ s, filter_boolean (.vstr s) = .ok (.vbool (pyLower s == "true"))) := by
  refine ⟨?_, ?_, fun s => rfl⟩
  · rw [single_param_filter, question_filters_boolean _ _ h]
  · intro b
    cases b <;> decide

/-- Witness for C6 at the `-resume` engine flag. -/
theorem boolean_filter_roundtrip_witness :
    (single_param_to_pyinquirer "-resume" { ptype := "boolean" } [] [] true).filter
        = some filter_boolean ∧
    filter_boolean (.vstr "True") = .ok (.vbool true) ∧
    filter_boolean (.vstr "False") = .ok (.vbool false) :=
  ⟨(boolean_filter_roundtrip "-resume" { ptype := "boolean" } [] [] true rfl).1,
   (boolean_filter_roundtrip "-resume" { ptype := "boolean" } [] [] true rfl).2.1 true,
   (boolean_filter_roundtrip "-resume" { ptype := "boolean" } [] [] true rfl).2.1 false⟩

/-! ## Claim C7 — numeric empty-string handling -/

/-- C7: for number, integer and range properties (with no `enum`/`pattern`
override, which would replace the validator), the compiled validator
accepts empty and all-whitespace input, the compiled filter maps such
input to the empty string — never to zero — and filters accepted
non-empty input to the parsed float (parsed int for integers). -/
theorem numeric_empty_input (pid : String) (obj : LeafSchema)
    (ip ans : List (String × Value)) (ph : Bool) (s : String)
    (ht : obj.ptype = "number" ∨ obj.ptype = "integer" ∨ obj.ptype = "range")
    (he : obj.enum = none) (hp : obj.pattern = none) :
    (obj.ptype = "number" →
      (single_param_to_pyinquirer pid obj ip ans ph).validate = some validate_number ∧
      (single_param_to_pyinquirer pid obj ip ans ph).filter = some filter_number) ∧
    (obj.ptype = "integer" →
      (single_param_to_pyinquirer pid obj ip ans ph).validate = some validate_integer ∧
      (single_param_to_pyinquirer pid obj ip ans ph).filter = some filter_integer) ∧
    (obj.ptype = "range" →
      (single_param_to_pyinquirer pid obj ip ans ph).validate
          = some (validate_range obj.minimum obj.maximum) ∧
      (single_param_to_pyinquirer pid obj ip ans ph).filter = some filter_range) ∧
    (pyTrim s = "" →
      validate_number s = .ok ∧ validate_integer s = .ok ∧
      validate_range obj.minimum obj.maximum s = .ok ∧
      filter_number (.vstr s) = .ok (.vstr "") ∧
      filter_integer (.vstr s) = .ok (.vstr "") ∧
      filter_range (.vstr s) = .ok (.vstr "") ∧
      filter_number (.vstr s) ≠ .ok (.vnum 0) ∧
      filter_integer (.vstr s) ≠ .ok (.vint 0) ∧
      filter_range (.vstr s) ≠ .ok (.vnum 0)) ∧
    (pyTrim s ≠ "" →
      (validate_number s = .ok →
        ∃ x, pyFloat? s = some x ∧ filter_number (.vstr s) = .ok (.vnum x)) ∧
      (validate_integer s = .ok →
        ∃ n, pyInt? s = some n ∧ filter_integer (.vstr s) = .ok (.vint n)) ∧
      (validate_range obj.minimum obj.maximum s = .ok →
        ∃ x, pyFloat? s = some x ∧ filter_range (.vstr s) = .ok (.vnum x))) := by
  have hbool : obj.ptype ≠ "boolean" := by
    rcases ht with h | h | h <;> rw [h] <;> decide
  refine ⟨?_, ?_, ?_, ?_, ?_⟩
  · intro h
    rw [single_param_filter, single_param_validate pid obj ip ans ph he hp]
    exact ⟨(question_filters_number _ _ h).1, (question_filters_number _ _ h).2⟩
  · intro h
    rw [single_param_filter, single_param_validate pid obj ip ans ph he hp]
    exact ⟨(question_filters_integer _ _ h).1, (question_filters_integer _ _ h).2⟩
  · intro h
    rw [single_param_filter, single_param_validate pid obj ip ans ph he hp]
    exact ⟨(question_filters_range _ _ h).1, (question_filters_range _ _ h).2⟩
  · intro hs
    refine ⟨?_, ?_, ?_, ?_, ?_, ?_, ?_, ?_, ?_⟩ <;>
      simp [validate_number, validate_integer, validate_range,
        filter_number, filter_integer, filter_range, hs]
  · intro hs
    refine ⟨?_, ?_, ?_⟩
    · intro hv
      unfold validate_number at hv
      rw [if_neg hs] at hv
      simp only [filter_number]
      rw [if_neg hs]
      cases hf : pyFloat? s with
      | none => rw [hf] at hv; exact VResult.noConfusion hv
      | some x => exact ⟨x, rfl, rfl⟩
    · intro hv
      unfold validate_integer at hv
      rw [if_neg hs] at hv
      simp only [filter_integer]
      rw [if_neg hs]
      cases hn : pyInt? s with
      | none => rw [hn] at hv; exact VResult.noConfusion hv
      | some n => exact ⟨n, rfl, rfl⟩
    · intro hv
      unfold validate_range at hv
      rw [if_neg hs] at hv
      simp only [filter_range]
      rw [if_neg hs]
      cases hf : pyFloat? s with
      | none => rw [hf] at hv; exact VResult.noConfusion hv
      | some x => exact ⟨x, rfl, rfl⟩

/-- Witness for C7: an integer property with all-whitespace input. -/
theorem numeric_empty_input_witness :
    (single_param_to_pyinquirer "threads" { ptype := "integer" } [] [] true).validate
        = some validate_integer ∧
    (single_param_to_pyinquirer "threads" { ptype := "integer" } [] [] true).filter
        = some filter_integer ∧
    validate_integer "  " = .ok ∧
    filter_integer (.vstr "  ") = .ok (.vstr "") ∧
    filter_integer (.vstr "  ") ≠ .ok (.vint 0) :=
  have h := numeric_empty_input "threads" { ptype := "integer" } [] [] true "  "
    (Or.inr (Or.inl rfl)) rfl rfl
  ⟨(h.2.1 rfl).1, (h.2.1 rfl).2, (h.2.2.2.1 (by decide)).2.1,
   (h.2.2.2.1 (by decide)).2.2.2.2.1, (h.2.2.2.1 (by decide)).2.2.2.2.2.2.2.1⟩

/-! ## Claim C9 — nested group rejection -/

theorem build_group_choices_nested (sh : Bool) (children : List (String × PropSchema))
    (h : ∃ c ∈ children, c.2.ptype = "object") :
    build_group_choices sh children = none := by
  induction children with
  | nil => simp at h
  | cons c rest ih =>
    obtain ⟨cid, cobj⟩ := c
    rcases h with ⟨d, hd, hobj⟩
    rcases List.mem_cons.mp hd with rfl | hd
    · simp only [build_group_choices]
      rw [if_pos hobj]
    · by_cases hc : cobj.ptype = "object"
      · simp only [build_group_choices]
        rw [if_pos hc]
      · simp only [build_group_choices]
        rw [if_neg hc, ih ⟨d, hd, hobj⟩]

/-- C9: a group containing a child that is itself a group short-circuits:
the configuration error is reported, no prompt event is consumed, and no
answers are collected for any child — the result is a normal return (not a
crash) with an empty answer map. -/
theorem prompt_group_nested (pobj : PropSchema) (sh : Bool)
    (ip : List (String × Value)) (fuel : Nat) (events : List (Option Value))
    (h : ∃ c ∈ pobj.properties, c.2.ptype = "object") :
    prompt_group pobj sh ip fuel events
      = some ⟨[], ["nf-core only supports groups 1-level deep"], events⟩ := by
  unfold prompt_group
  rw [build_group_choices_nested sh pobj.properties h]

/-- Witness for C9: a two-level group is rejected with no answers. -/
theorem prompt_group_nested_witness :
    prompt_group (.mk { ptype := "object" } [("inner", .mk { ptype := "object" } [] [])] [])
        false [] 5 [some (Value.vstr "Continue >>")]
      = some ⟨[], ["nf-core only supports groups 1-level deep"],
              [some (Value.vstr "Continue >>")]⟩ :=
  prompt_group_nested (.mk { ptype := "object" } [("inner", .mk { ptype := "object" } [] [])] [])
    false [] 5 [some (Value.vstr "Continue >>")]
    ⟨("inner", .mk { ptype := "object" } [] []), by simp [PropSchema.properties], rfl⟩

/-! ## Claim C10 — no empty strings escape `prompt_param` -/

/-- C10: `prompt_param` never returns a map holding an empty-string value:
a required property re-prompts on a whitespace-only string answer, and a
non-required property answered with the empty string yields the empty
answer map rather than an entry with value `""`. -/
theorem prompt_param_no_empty (pid : String) :
    (∀ req events m rest, prompt_param pid req events = some (m, rest) →
      ∀ k v, (k, v) ∈ m → v ≠ Value.vstr "") ∧
    (∀ rest, prompt_param pid true (some (Value.vstr "") :: rest)
        = prompt_param pid true rest) ∧
    (∀ rest, prompt_param pid false (some (Value.vstr "") :: rest) = some ([], rest)) := by
  refine ⟨?_, fun rest => rfl, fun rest => rfl⟩
  intro req events
  induction events with
  | nil => intro m rest h; exact Option.noConfusion h
  | cons e tail ih =>
    intro m rest h k v hmem
    cases e with
    | none => exact Option.noConfusion h
    | some a =>
      simp only [prompt_param] at h
      split at h
      · exact ih m rest h k v hmem
      · split at h
        · cases h
          simp at hmem
        · cases h
          have hva : v = a := by
            simpa using congrArg Prod.snd (List.mem_singleton.mp hmem)
          rename_i hne
          intro hveq
          apply hne
          rw [← hva, hveq]
          decide

/-- Witness for C10. -/
theorem prompt_param_no_empty_witness :
    prompt_param "input" true (some (Value.vstr "") :: [some (Value.vstr "data.csv")])
        = prompt_param "input" true [some (Value.vstr "data.csv")] ∧
    prompt_param "input" false [some (Value.vstr "")] = some ([], []) ∧
    Value.vstr "data.csv" ≠ Value.vstr "" :=
  ⟨(prompt_param_no_empty "input").2.1 [some (Value.vstr "data.csv")],
   (prompt_param_no_empty "input").2.2 [],
   (prompt_param_no_empty "input").1 true [some (Value.vstr "data.csv")]
     [("input", Value.vstr "data.csv")] [] rfl "input" (Value.vstr "data.csv") (by simp)⟩

/-! ## Claim C2 — poll response status handling -/

/-- C2: one poll step signals "not yet done" exactly when the response
status is `waiting_for_user`; an `error` status aborts with the response
message embedded in the assertion text; any status other than the three
known ones aborts with a diagnostic carrying the raw status value and the
queried endpoint URL. -/
theorem get_web_launch_response_statuses (st : LaunchState) (resp : WebResponse) :
    (resp.status = "waiting_for_user" → get_web_launch_response st resp = .ok (false, st)) ∧
    (∀ b st2, get_web_launch_response st resp = .ok (b, st2) →
      (b = false ↔ resp.status = "waiting_for_user")) ∧
    (∀ m, resp.status = "error" → resp.message = some m →
      get_web_launch_response st resp
        = .error ("Got error from launch API (" ++ m ++ ")")) ∧
    (resp.status = "error" → resp.message = none →
      get_web_launch_response st resp
        = .error ("Got error from launch API (" ++ "None" ++ ")")) ∧
    (resp.status ≠ "waiting_for_user" → resp.status ≠ "error" →
      resp.status ≠ "launch_params_complete" →
      get_web_launch_response st resp
        = .error ("Web launch GUI returned unexpected status (" ++ resp.status ++ "): "
            ++ st.web_schema_launch_api_url ++ "\n See verbose log for full response")) := by
  refine ⟨?_, ?_, ?_, ?_, ?_⟩
  · intro h
    unfold get_web_launch_response
    rw [h]
    rfl
  · intro b st2 h
    unfold get_web_launch_response at h
    by_cases herr : resp.status = "error"
    · rw [if_pos herr] at h
      exact Except.noConfusion h
    · rw [if_neg herr] at h
      by_cases hw : resp.status = "waiting_for_user"
      · rw [if_pos hw] at h
        cases h
        simp [hw]
      · rw [if_neg hw] at h
        by_cases hc : resp.status = "launch_params_complete"
        · rw [if_pos hc] at h
          constructor
          · intro hb
            split at h
            · exact Except.noConfusion h
            · split at h
              · exact Except.noConfusion h
              · cases h
                exact absurd hb (by decide)
          · intro hww
            exact absurd hww hw
        · rw [if_neg hc] at h
          exact Except.noConfusion h
  · intro m herr hm
    unfold get_web_launch_response
    rw [herr, hm]
    rfl
  · intro herr hm
    unfold get_web_launch_response
    rw [herr, hm]
    rfl
  · intro h1 h2 h3
    unfold get_web_launch_response
    rw [if_neg h2, if_neg h1, if_neg h3]

/-- Witness for C2 at three concrete poll responses. -/
theorem get_web_launch_response_statuses_witness :
    get_web_launch_response {} { status := "waiting_for_user" } = .ok (false, {}) ∧
    get_web_launch_response {} { status := "error", message := some "boom" }
      = .error ("Got error from launch API (" ++ "boom" ++ ")") ∧
    get_web_launch_response { web_schema_launch_api_url := "https://nf-co.re/launch?id=abc&api=true" }
        { status := "recieved" }
      = .error ("Web launch GUI returned unexpected status (" ++ "recieved" ++ "): "
          ++ "https://nf-co.re/launch?id=abc&api=true" ++ "\n See verbose log for full response") :=
  ⟨(get_web_launch_response_statuses {} { status := "waiting_for_user" }).1 rfl,
   (get_web_launch_response_statuses {} { status := "error", message := some "boom" }).2.2.1
     "boom" rfl rfl,
   (get_web_launch_response_statuses
       { web_schema_launch_api_url := "https://nf-co.re/launch?id=abc&api=true" }
       { status := "recieved" }).2.2.2.2 (by decide) (by decide) (by decide)⟩

/-! ## Claim C3 — adoption of completed-form parameters -/

/-- One stored state whose input map holds a whitespace-only value. -/
def c3_state : LaunchState :=
  { input_params := [("foo", Value.vstr " ")],
    web_schema_launch_api_url := "https://nf-co.re/launch?id=abc&api=true" }

/-- A completed-form response whose two mappings are both empty. -/
def c3_resp : WebResponse :=
  { status := "launch_params_complete",
    nxf_flags := some [],
    input_params := some [],
    schema := some {},
    cli_launch := some true,
    nextflow_cmd := some "nextflow run demo",
    pipeline := some (Value.vstr "demo"),
    revision := some Value.vnone }

/-- C3 counterexample: the returned `input_params` mapping is empty, yet
the previously stored mapping is *not* left unchanged by the handler — the
sanitisation pass that runs inside `get_web_launch_response` strips the
stored whitespace-valued entry. -/
theorem c3_counterexample :
    c3_resp.input_params = some [] ∧
    get_web_launch_response c3_state c3_resp
      = .ok (true,
          { c3_state with
            input_params := [],
            schema := {},
            cli_launch := true,
            nextflow_cmd := "nextflow run demo",
            pipeline := Value.vstr "demo",
            revision := Value.vnone }) ∧
    ([] : List (String × Value)) ≠ c3_state.input_params :=
  ⟨rfl, rfl, by decide⟩

/-- C3 (amended): on a `launch_params_complete` response the handler
adopts schema, `cli_launch`, `nextflow_cmd`, `pipeline` and `revision`
verbatim, and adopts the returned `nxf_flags`/`input_params` mappings only
when they are non-empty — an empty returned mapping leaves the previously
stored mapping in place *at the adoption step*; the subsequent
sanitisation pass is then applied to whichever mappings survived, so the
final stored mappings are their sanitised forms. -/
theorem get_web_adopt_amended (st : LaunchState) (resp : WebResponse)
    (hst : resp.status = "launch_params_complete")
    (nf ip : List (String × Value)) (sch : Schema) (cl : Bool) (nc : String) (pl rv : Value)
    (hnf : resp.nxf_flags = some nf) (hip : resp.input_params = some ip)
    (hsch : resp.schema = some sch) (hcl : resp.cli_launch = some cl)
    (hnc : resp.nextflow_cmd = some nc) (hpl : resp.pipeline = some pl)
    (hrv : resp.revision = some rv) :
    adopt_launch_params st resp
      = .ok { st with
          nxf_flags := if nf.length > 0 then nf else st.nxf_flags,
          input_params := if ip.length > 0 then ip else st.input_params,
          schema := sch, cli_launch := cl, nextflow_cmd := nc,
          pipeline := pl, revision := rv } ∧
    (∀ b st2, get_web_launch_response st resp = .ok (b, st2) →
      b = true ∧ st2.schema = sch ∧ st2.cli_launch = cl ∧ st2.nextflow_cmd = nc ∧
      st2.pipeline = pl ∧ st2.revision = rv ∧
      sanitise_web_response sch.properties
          (if nf.length > 0 then nf else st.nxf_flags)
          (if ip.length > 0 then ip else st.input_params)
        = .ok (st2.nxf_flags, st2.input_params)) := by
  have hadopt : adopt_launch_params st resp
      = .ok { st with
          nxf_flags := if nf.length > 0 then nf else st.nxf_flags,
          input_params := if ip.length > 0 then ip else st.input_params,
          schema := sch, cli_launch := cl, nextflow_cmd := nc,
          pipeline := pl, revision := rv } := by
    unfold adopt_launch_params
    rw [hnf, hip, hsch, hcl, hnc, hpl, hrv]
    conv_lhs => whnf
    by_cases h1 : nf.length > 0 <;> by_cases h2 : ip.length > 0 <;> simp [h1, h2]
  have hred : get_web_launch_response st resp
      = match sanitise_web_response sch.properties
            (if nf.length > 0 then nf else st.nxf_flags)
            (if ip.length > 0 then ip else st.input_params) with
        | .error ename =>
          .error ("Unknown exception (" ++ ename ++ ") - see verbose log for details.")
        | .ok (fl, ip2) =>
          .ok (true,
            { st with
              nxf_flags := fl,
              input_params := ip2,
              schema := sch,
              cli_launch := cl,
              nextflow_cmd := nc,
              pipeline := pl,
              revision := rv }) := by
    unfold get_web_launch_response
    rw [hst,
        if_neg (show ¬("launch_params_complete" : String) = "error" by decide),
        if_neg (show ¬("launch_params_complete" : String) = "waiting_for_user" by decide),
        if_pos (show ("launch_params_complete" : String) = "launch_params_complete" from rfl),
        hadopt]
  refine ⟨hadopt, ?_⟩
  intro b st2 h
  rw [hred] at h
  cases hsan : sanitise_web_response sch.properties
      (if nf.length > 0 then nf else st.nxf_flags)
      (if ip.length > 0 then ip else st.input_params) with
  | error e =>
    rw [hsan] at h
    exact Except.noConfusion h
  | ok pr =>
    obtain ⟨fl, ip2⟩ := pr
    rw [hsan] at h
    replace h : Except.ok (true,
        ({ st with
           nxf_flags := fl,
           input_params := ip2,
           schema := sch,
           cli_launch := cl,
           nextflow_cmd := nc,
           pipeline := pl,
           revision := rv } : LaunchState)) = Except.ok (b, st2) := h
    cases h
    exact ⟨rfl, rfl, rfl, rfl, rfl, rfl, rfl⟩

/-- Witness for the amended C3: both returned mappings empty, so the
adoption step keeps the stored mappings and adopts the other five fields
verbatim. -/
theorem get_web_adopt_amended_witness :
    adopt_launch_params c3_state c3_resp
      = .ok { c3_state with
              schema := {},
              cli_launch := true,
              nextflow_cmd := "nextflow run demo",
              pipeline := Value.vstr "demo",
              revision := Value.vnone } :=
  (get_web_adopt_amended c3_state c3_resp rfl [] [] {} true "nextflow run demo"
    (Value.vstr "demo") Value.vnone rfl rfl rfl rfl rfl rfl rfl).1

/-! ## Claim C4 — web-response sanitisation -/

/-- Every key of a sanitised map comes from the raw map. -/
theorem sanitise_params_keys (qs : List (String × Question))
    (ps m : List (String × Value)) (h : sanitise_params qs ps = .ok m) :
    ∀ k w, (k, w) ∈ m → k ∈ ps.map Prod.fst := by
  induction ps generalizing m with
  | nil =>
    cases h
    intro k w hk
    simp at hk
  | cons p rest ih =>
    obtain ⟨k0, v0⟩ := p
    intro k w hk
    simp only [sanitise_params] at h
    split at h
    · exact List.mem_cons_of_mem _ (ih _ h k w hk)
    · split at h
      · split at h
        · exact Except.noConfusion h
        · cases h
          rcases List.mem_cons.mp hk with hkv | hkv
          · rw [show k = k0 from congrArg Prod.fst hkv]
            exact List.mem_cons_self _ _
          · rename_i htail
            exact List.mem_cons_of_mem _ (ih _ htail k w hkv)
      · split at h
        · exact Except.noConfusion h
        · split at h
          · exact Except.noConfusion h
          · cases h
            rcases List.mem_cons.mp hk with hkv | hkv
            · rw [show k = k0 from congrArg Prod.fst hkv]
              exact List.mem_cons_self _ _
            · rename_i htail
              exact List.mem_cons_of_mem _ (ih _ htail k w hkv)

/-- Per-map characterisation of `sanitise_params`: an entry whose
stringified value strips to the empty string is removed; every other entry
survives, with its declared filter applied (and the filter must have
succeeded). -/
theorem sanitise_params_char (qs : List (String × Question))
    (ps m : List (String × Value)) (hnd : (ps.map Prod.fst).Nodup)
    (h : sanitise_params qs ps = .ok m) :
    ∀ k v, (k, v) ∈ ps →
      (pyTrim (pyStr v) = "" → ∀ w, (k, w) ∉ m) ∧
      (pyTrim (pyStr v) ≠ "" →
        ((alookup qs k).bind Question.filter = none → (k, v) ∈ m) ∧
        (∀ f, (alookup qs k).bind Question.filter = some f →
          ∃ v2, f v = .ok v2 ∧ (k, v2) ∈ m)) := by
  induction ps generalizing m with
  | nil => intro k v hk; simp at hk
  | cons p rest ih =>
    obtain ⟨k0, v0⟩ := p
    rw [List.map_cons, List.nodup_cons] at hnd
    intro k v hk
    simp only [sanitise_params] at h
    rcases List.mem_cons.mp hk with hkv | hkv
    · obtain ⟨hkk, hvv⟩ : k = k0 ∧ v = v0 :=
        ⟨congrArg Prod.fst hkv, congrArg Prod.snd hkv⟩
      subst hkk; subst hvv
      split at h
      · rename_i htrim
        constructor
        · intro _ w hw
          exact hnd.1 (sanitise_params_keys qs rest m h k w hw)
        · intro hne
          exact absurd htrim hne
      · rename_i htrim
        constructor
        · intro hemp
          exact absurd hemp htrim
        · intro _
          split at h
          · rename_i hfil
            split at h
            · exact Except.noConfusion h
            · cases h
              refine ⟨fun _ => List.mem_cons_self _ _, fun f hf => ?_⟩
              rw [hfil] at hf
              exact Option.noConfusion hf
          · rename_i f0 hfil
            split at h
            · exact Except.noConfusion h
            · rename_i v2 hfv
              split at h
              · exact Except.noConfusion h
              · cases h
                constructor
                · intro hnone
                  rw [hfil] at hnone
                  exact Option.noConfusion hnone
                · intro f hf
                  rw [hfil] at hf
                  cases hf
                  exact ⟨v2, hfv, List.mem_cons_self _ _⟩
    · have hkrest : k ∈ rest.map Prod.fst := List.mem_map_of_mem Prod.fst hkv
      have hk0 : k ≠ k0 := fun he => hnd.1 (he ▸ hkrest)
      split at h
      · exact ih _ hnd.2 h k v hkv
      · split at h
        · split at h
          · exact Except.noConfusion h
          · cases h
            rename_i htail
            have hres := ih _ hnd.2 htail k v hkv
            refine ⟨fun hemp w hw => ?_, fun hne => ?_⟩
            · rcases List.mem_cons.mp hw with hww | hww
              · exact hk0 (congrArg Prod.fst hww)
              · exact hres.1 hemp w hww
            · refine ⟨fun hnone => List.mem_cons_of_mem _ ((hres.2 hne).1 hnone),
                fun f hf => ?_⟩
              obtain ⟨v2, hv2, hmem⟩ := (hres.2 hne).2 f hf
              exact ⟨v2, hv2, List.mem_cons_of_mem _ hmem⟩
        · split at h
          · exact Except.noConfusion h
          · split at h
            · exact Except.noConfusion h
            · cases h
              rename_i htail
              have hres := ih _ hnd.2 htail k v hkv
              refine ⟨fun hemp w hw => ?_, fun hne => ?_⟩
              · rcases List.mem_cons.mp hw with hww | hww
                · exact hk0 (congrArg Prod.fst hww)
                · exact hres.1 hemp w hww
              · refine ⟨fun hnone => List.mem_cons_of_mem _ ((hres.2 hne).1 hnone),
                  fun f hf => ?_⟩
                obtain ⟨v2, hv2, hmem⟩ := (hres.2 hne).2 f hf
                exact ⟨v2, hv2, List.mem_cons_of_mem _ hmem⟩

/-- One boolean property, used by the C4 counterexample and witness. -/
def c4_props : List (String × PropSchema) :=
  [("flag", .mk { ptype := "boolean" } [] [])]

/-- C4 counterexample: the claim (and the spec) order the two passes as
filter-then-drop, but the code drops first and filters afterwards.  For a
boolean property whose raw remote value is the empty string the orders
disagree: the code deletes the entry, while filter-first would keep it as
`False` (whose stripped string form "False" is non-empty). -/
theorem c4_counterexample :
    sanitise_web_response c4_props [("flag", Value.vstr "")] [] = .ok ([], []) ∧
    sanitise_web_response_spec c4_props [("flag", Value.vstr "")] []
      = .ok ([("flag", Value.vbool false)], []) ∧
    sanitise_web_response c4_props [("flag", Value.vstr "")] []
      ≠ sanitise_web_response_spec c4_props [("flag", Value.vstr "")] [] :=
  ⟨rfl, rfl, by decide⟩

/-- C4 (amended): `sanitise_web_response` recomputes a question descriptor
for every schema leaf (children of groups included, without printing
help — `build_pyinquirer_objects` calls the compiler with
`print_help = false`) and then, for each of the two maps, *first* removes
every property whose stripped raw value is the empty string and applies
the declared filter to each remaining value (in the code the
removal check runs before the filter, not after it). -/
theorem sanitise_web_response_amended (props : List (String × PropSchema))
    (fl ip fl2 ip2 : List (String × Value))
    (hfl : (fl.map Prod.fst).Nodup) (hip : (ip.map Prod.fst).Nodup)
    (h : sanitise_web_response props fl ip = .ok (fl2, ip2)) :
    (∀ k v, (k, v) ∈ fl →
      (pyTrim (pyStr v) = "" → ∀ w, (k, w) ∉ fl2) ∧
      (pyTrim (pyStr v) ≠ "" →
        ((alookup (build_pyinquirer_objects props ip) k).bind Question.filter = none →
          (k, v) ∈ fl2) ∧
        (∀ f, (alookup (build_pyinquirer_objects props ip) k).bind Question.filter = some f →
          ∃ v2, f v = .ok v2 ∧ (k, v2) ∈ fl2))) ∧
    (∀ k v, (k, v) ∈ ip →
      (pyTrim (pyStr v) = "" → ∀ w, (k, w) ∉ ip2) ∧
      (pyTrim (pyStr v) ≠ "" →
        ((alookup (build_pyinquirer_objects props ip) k).bind Question.filter = none →
          (k, v) ∈ ip2) ∧
        (∀ f, (alookup (build_pyinquirer_objects props ip) k).bind Question.filter = some f →
          ∃ v2, f v = .ok v2 ∧ (k, v2) ∈ ip2))) := by
  unfold sanitise_web_response at h
  replace h : (match sanitise_params (build_pyinquirer_objects props ip) fl with
      | .error e => (.error e : Except String (List (String × Value) × List (String × Value)))
      | .ok flv =>
        match sanitise_params (build_pyinquirer_objects props ip) ip with
        | .error e => .error e
        | .ok ipv => .ok (flv, ipv)) = .ok (fl2, ip2) := h
  cases hf : sanitise_params (build_pyinquirer_objects props ip) fl with
  | error e =>
    rw [hf] at h
    exact Except.noConfusion h
  | ok flv =>
    rw [hf] at h
    replace h : (match sanitise_params (build_pyinquirer_objects props ip) ip with
        | .error e => (.error e : Except String (List (String × Value) × List (String × Value)))
        | .ok ipv => .ok (flv, ipv)) = .ok (fl2, ip2) := h
    cases hi : sanitise_params (build_pyinquirer_objects props ip) ip with
    | error e =>
      rw [hi] at h
      exact Except.noConfusion h
    | ok ipv =>
      rw [hi] at h
      replace h : Except.ok (flv, ipv) = Except.ok (fl2, ip2) := h
      cases h
      exact ⟨fun k v hk => sanitise_params_char _ _ _ hfl hf k v hk,
             fun k v hk => sanitise_params_char _ _ _ hip hi k v hk⟩

/-- Witness for the amended C4: a whitespace-valued boolean flag is
dropped from the sanitised flags map. -/
theorem sanitise_web_response_amended_witness :
    sanitise_web_response c4_props [("flag", Value.vstr " ")] [] = .ok ([], []) ∧
    ("flag", Value.vbool true) ∉ ([] : List (String × Value)) :=
  ⟨rfl,
   (sanitise_web_response_amended c4_props [("flag", Value.vstr " ")] [] [] []
       (by decide) (by decide) rfl).1 "flag" (Value.vstr " ")
     (by decide) |>.1 (by decide) (Value.vbool true)⟩

/-! ## Claim C5 — default stripping -/

theorem alookup_eq_none_of_not_keys {α : Type} (m : List (String × α)) (k : String)
    (h : k ∉ m.map Prod.fst) : alookup m k = none := by
  induction m with
  | nil => rfl
  | cons p rest ih =>
    simp only [List.map_cons, List.mem_cons] at h
    push_neg at h
    rw [alookup_cons, if_neg (Ne.symm h.1)]
    exact ih h.2

theorem pyEq_vnone_left (d : Value) (h : d ≠ Value.vnone) : pyEq Value.vnone d = false := by
  cases d with
  | vnone => exact absurd rfl h
  | vstr s => rfl
  | vbool b => rfl
  | vint n => rfl
  | vnum q => rfl

theorem nodup_keys_dictRemove {α : Type} (m : List (String × α)) (k : String)
    (h : (m.map Prod.fst).Nodup) : ((dictRemove m k).map Prod.fst).Nodup :=
  h.sublist ((List.filter_sublist m).map Prod.fst)

theorem delKey_ok (m : List (String × Value)) (k : String)
    (h : (alookup m k).isSome) : delKey m k = .ok (dictRemove m k) := by
  simp [delKey, h]

/-- The keep-or-delete predicate of the input-parameter stripping loop. -/
def default_strip_pred (schema_defaults : List (String × Value))
    (p : String × Value) : Bool :=
  match alookup schema_defaults p.1 with
  | some d => !(pyEq p.2 d)
  | none => true

/-- `strip_default_params`, input-parameter half (lines 662-665): under
unique keys and non-null declared defaults, the loop deletes exactly the
entries that equal their schema default. -/
theorem strip_input_defaults_eq (schema_defaults ip : List (String × Value))
    (hip : (ip.map Prod.fst).Nodup) (hdef : (schema_defaults.map Prod.fst).Nodup)
    (hnn : ∀ p ∈ schema_defaults, p.2 ≠ Value.vnone) :
    strip_input_defaults schema_defaults ip
      = .ok (ip.filter (default_strip_pred schema_defaults)) := by
  induction schema_defaults generalizing ip with
  | nil =>
    show Except.ok ip = _
    congr 1
    exact (List.filter_eq_self.mpr (fun a _ => rfl)).symm
  | cons d ds ih =>
    obtain ⟨k0, d0⟩ := d
    rw [List.map_cons, List.nodup_cons] at hdef
    have hnn0 : d0 ≠ Value.vnone := hnn (k0, d0) (List.mem_cons_self _ _)
    have hnns : ∀ p ∈ ds, p.2 ≠ Value.vnone := fun p hp => hnn p (List.mem_cons_of_mem _ hp)
    rcases hl : alookup ip k0 with _ | v0
    · -- key absent from the input map: `get` yields None, never equal to a non-null default
      have hcond : ¬pyEq ((alookup ip k0).getD .vnone) d0 = true := by
        rw [hl]
        simp [pyEq_vnone_left d0 hnn0]
      have hstep : strip_input_defaults ((k0, d0) :: ds) ip = strip_input_defaults ds ip := by
        unfold strip_input_defaults
        rw [List.foldlM_cons, if_neg hcond]
        rfl
      rw [hstep, ih ip hip hdef.2 hnns]
      congr 1
      refine List.filter_congr ?_
      intro p hp
      have hpk : p.1 ≠ k0 := by
        intro he
        exact alookup_eq_none_not_mem ip k0 hl p.2
          (by rw [← he]; exact hp)
      simp [default_strip_pred, alookup_cons, hpk, Ne.symm hpk]
    · by_cases he : pyEq v0 d0 = true
      · -- stored value equals the default: delete
        have hcond : pyEq ((alookup ip k0).getD .vnone) d0 = true := by rw [hl]; exact he
        have hstep : strip_input_defaults ((k0, d0) :: ds) ip
            = strip_input_defaults ds (dictRemove ip k0) := by
          unfold strip_input_defaults
          rw [List.foldlM_cons, if_pos hcond, delKey_ok ip k0 (by rw [hl]; rfl)]
          rfl
        rw [hstep, ih (dictRemove ip k0) (nodup_keys_dictRemove ip k0 hip) hdef.2 hnns]
        unfold dictRemove
        rw [List.filter_filter]
        congr 1
        refine List.filter_congr ?_
        intro p hp
        by_cases hpk : p.1 = k0
        · have hv : p.2 = v0 := by
            have hlk : alookup ip p.1 = some p.2 := by
              refine mem_alookup_of_nodup ip p.1 p.2 hip ?_
              rcases p with ⟨pk, pv⟩
              exact hp
            rw [hpk, hl] at hlk
            exact (Option.some.injEq _ _).mp hlk.symm
          simp [default_strip_pred, alookup_cons, hpk, hv, he]
        · simp [default_strip_pred, alookup_cons, hpk, Ne.symm hpk]
      · -- stored value differs from the default: keep
        have hcond : ¬pyEq ((alookup ip k0).getD .vnone) d0 = true := by rw [hl]; exact he
        have hstep : strip_input_defaults ((k0, d0) :: ds) ip = strip_input_defaults ds ip := by
          unfold strip_input_defaults
          rw [List.foldlM_cons, if_neg hcond]
          rfl
        rw [hstep, ih ip hip hdef.2 hnns]
        congr 1
        refine List.filter_congr ?_
        intro p hp
        by_cases hpk : p.1 = k0
        · have hv : p.2 = v0 := by
            have hlk : alookup ip p.1 = some p.2 := by
              refine mem_alookup_of_nodup ip p.1 p.2 hip ?_
              rcases p with ⟨pk, pv⟩
              exact hp
            rw [hpk, hl] at hlk
            exact (Option.some.injEq _ _).mp hlk.symm
          simp [default_strip_pred, alookup_cons, hpk, hv, he,
            alookup_eq_none_of_not_keys ds k0 hdef.1]
        · simp [default_strip_pred, alookup_cons, hpk, Ne.symm hpk]

/-- The keep-or-delete predicate of the engine-flag stripping loop. -/
def flag_strip_pred (flag_props : List (String × LeafSchema))
    (p : String × Value) : Bool :=
  match alookup flag_props p.1 with
  | some lf => !(pyEq p.2 (lf.default.getD .vnone))
  | none => true

/-- `strip_default_params`, engine-flag half (lines 667-670): the loop
deletes exactly the flags whose value equals the flag schema's declared
default (`None` when no default is declared). -/
theorem strip_flag_defaults_eq (flag_props : List (String × LeafSchema))
    (fl : List (String × Value))
    (hfl : (fl.map Prod.fst).Nodup) (hprops : (flag_props.map Prod.fst).Nodup) :
    strip_flag_defaults flag_props fl = fl.filter (flag_strip_pred flag_props) := by
  induction flag_props generalizing fl with
  | nil =>
    show fl = _
    exact (List.filter_eq_self.mpr (fun a _ => rfl)).symm
  | cons pr ds ih =>
    obtain ⟨k0, lf0⟩ := pr
    rw [List.map_cons, List.nodup_cons] at hprops
    have hstep : strip_flag_defaults ((k0, lf0) :: ds) fl
        = strip_flag_defaults ds
            (if (alookup fl k0).isSome &&
                pyEq ((alookup fl k0).getD .vnone) (lf0.default.getD .vnone)
             then dictRemove fl k0 else fl) := rfl
    rcases hl : alookup fl k0 with _ | v0
    · rw [hstep, hl]
      show strip_flag_defaults ds fl = _
      rw [ih fl hfl hprops.2]
      refine List.filter_congr ?_
      intro p hp
      have hpk : p.1 ≠ k0 := by
        intro he
        exact alookup_eq_none_not_mem fl k0 hl p.2 (by rw [← he]; exact hp)
      simp [flag_strip_pred, alookup_cons, hpk, Ne.symm hpk]
    · rw [hstep, hl]
      by_cases he : pyEq v0 (lf0.default.getD .vnone) = true
      · have hc : ((some v0).isSome &&
            pyEq ((some v0).getD Value.vnone) (lf0.default.getD Value.vnone)) = true := by
          simp [he]
        rw [if_pos hc, ih (dictRemove fl k0) (nodup_keys_dictRemove fl k0 hfl) hprops.2]
        unfold dictRemove
        rw [List.filter_filter]
        refine List.filter_congr ?_
        intro p hp
        by_cases hpk : p.1 = k0
        · have hv : p.2 = v0 := by
            have hlk : alookup fl p.1 = some p.2 := by
              refine mem_alookup_of_nodup fl p.1 p.2 hfl ?_
              rcases p with ⟨pk, pv⟩
              exact hp
            rw [hpk, hl] at hlk
            exact (Option.some.injEq _ _).mp hlk.symm
          simp [flag_strip_pred, alookup_cons, hpk, hv, he]
        · simp [flag_strip_pred, alookup_cons, hpk, Ne.symm hpk]
      · have hc : ¬((some v0).isSome &&
            pyEq ((some v0).getD Value.vnone) (lf0.default.getD Value.vnone)) = true := by
          simp [he]
        rw [if_neg hc, ih fl hfl hprops.2]
        refine List.filter_congr ?_
        intro p hp
        by_cases hpk : p.1 = k0
        · have hv : p.2 = v0 := by
            have hlk : alookup fl p.1 = some p.2 := by
              refine mem_alookup_of_nodup fl p.1 p.2 hfl ?_
              rcases p with ⟨pk, pv⟩
              exact hp
            rw [hpk, hl] at hlk
            exact (Option.some.injEq _ _).mp hlk.symm
          simp [flag_strip_pred, alookup_cons, hpk, hv, he,
            alookup_eq_none_of_not_keys ds k0 hprops.1]
        · simp [flag_strip_pred, alookup_cons, hpk, Ne.symm hpk]

/-- C5 counterexample: line 664 compares `input_params.get(param_id)` —
`None` for an absent key — against the declared default with `==` and
then unconditionally executes `del`.  For a null (`None`) schema default
whose parameter is absent from the input values, `None == None` holds
and the `del` raises an uncaught `KeyError`: the launch aborts instead
of deleting exactly the default-valued entries and leaving the rest —
here `{b: 2}` — unchanged, as the claim states. -/
theorem c5_counterexample :
    launch_strip_defaults false [("a", Value.vnone)] nxf_flag_properties
        [("b", Value.vint 2)] []
      = .error "KeyError" ∧
    (Except.error "KeyError" :
        Except String (List (String × Value) × List (String × Value)))
      ≠ .ok ([("b", Value.vint 2)], []) :=
  ⟨rfl, by decide⟩

/-- C5 (amended): with save-all disabled, `strip_default_params` deletes
from the input values exactly the parameters whose stored value equals
their schema-declared default, and from the flags map exactly the engine
flags whose value equals their declared default, leaving every other
entry unchanged — provided no schema-declared default is null (a null
default whose parameter is absent makes the deletion raise `KeyError`,
aborting instead) and keys are unique; with save-all enabled nothing is
stripped. -/
theorem strip_default_params_correct (schema_defaults : List (String × Value))
    (flag_props : List (String × LeafSchema)) (ip fl : List (String × Value))
    (hip : (ip.map Prod.fst).Nodup) (hdef : (schema_defaults.map Prod.fst).Nodup)
    (hnn : ∀ p ∈ schema_defaults, p.2 ≠ Value.vnone)
    (hfl : (fl.map Prod.fst).Nodup) (hprops : (flag_props.map Prod.fst).Nodup) :
    launch_strip_defaults true schema_defaults flag_props ip fl = .ok (ip, fl) ∧
    launch_strip_defaults false schema_defaults flag_props ip fl
      = .ok (ip.filter (default_strip_pred schema_defaults),
             fl.filter (flag_strip_pred flag_props)) := by
  constructor
  · rfl
  · unfold launch_strip_defaults
    rw [strip_input_defaults_eq schema_defaults ip hip hdef hnn,
        strip_flag_defaults_eq flag_props fl hfl hprops]
    rfl

/-- Witness for C5: input values `{a:1, b:2}` against schema defaults
`{a:1}` keep only `b`; with save-all enabled nothing is stripped. -/
theorem strip_default_params_correct_witness :
    launch_strip_defaults false [("a", Value.vint 1)] nxf_flag_properties
        [("a", Value.vint 1), ("b", Value.vint 2)] []
      = .ok ([("b", Value.vint 2)], []) ∧
    launch_strip_defaults true [("a", Value.vint 1)] nxf_flag_properties
        [("a", Value.vint 1), ("b", Value.vint 2)] []
      = .ok ([("a", Value.vint 1), ("b", Value.vint 2)], []) := by
  have h := strip_default_params_correct [("a", Value.vint 1)] nxf_flag_properties
    [("a", Value.vint 1), ("b", Value.vint 2)] [] (by decide) (by decide) (by decide)
    (by decide) (by decide)
  exact ⟨h.2.trans (by decide), h.1⟩

/-! ## Claim C8 — engine-flag namespace priority -/

theorem dictUpdate_cons {α : Type} (base : List (String × α)) (p : String × α)
    (ups : List (String × α)) :
    dictUpdate base (p :: ups) = dictUpdate (dictInsert base p.1 p.2) ups := rfl

/-- `dict.update` keeps the first key of the base dict in first position. -/
theorem dictUpdate_head_key {α : Type} (k0 : String) (upd : List (String × α)) :
    ∀ (g : α) (base : List (String × α)),
      ∃ g2 rest, dictUpdate ((k0, g) :: base) upd = (k0, g2) :: rest := by
  induction upd with
  | nil => exact fun g base => ⟨g, base, rfl⟩
  | cons p ups ih =>
    intro g base
    rw [dictUpdate_cons]
    simp only [dictInsert]
    by_cases h : k0 = p.1
    · rw [if_pos h, ← h]
      exact ih p.2 base
    · rw [if_neg h]
      exact ih g (dictInsert base p.1 p.2)

/-- The collected flags map keeps an already-present key present. -/
theorem split_answers_flag_isSome (answers : List (String × Value)) :
    ∀ (fl0 pu0 : List (String × Value)) (k : String),
      (alookup fl0 k).isSome → (alookup (split_answers fl0 pu0 answers).1 k).isSome := by
  induction answers with
  | nil => exact fun fl0 pu0 k h => h
  | cons p ps ih =>
    intro fl0 pu0 k h
    by_cases h1 : p.1 = "Nextflow command-line flags"
    · rw [show split_answers fl0 pu0 (p :: ps)
          = split_answers fl0 pu0 ps from by
        unfold split_answers
        rw [List.foldl_cons, if_pos h1]]
      exact ih fl0 pu0 k h
    · by_cases h2 : (alookup nxf_flag_properties p.1).isSome
      · rw [show split_answers fl0 pu0 (p :: ps)
            = split_answers (dictInsert fl0 p.1 p.2) pu0 ps from by
          unfold split_answers
          rw [List.foldl_cons, if_neg h1, if_pos h2]]
        exact ih _ pu0 k (alookup_dictInsert_isSome fl0 k p.1 p.2 h)
      · rw [show split_answers fl0 pu0 (p :: ps)
            = split_answers fl0 (dictInsert pu0 p.1 p.2) ps from by
          unfold split_answers
          rw [List.foldl_cons, if_neg h1, if_neg h2]]
        exact ih fl0 _ k h

/-- C8: the engine-flag group is merged in front of the pipeline's own
properties, and the answer split routes every engine-flag-named answer to
the flags map and never to the workflow-parameter map: at an engine-flag
key the parameter map is left exactly as it started (so empty when it
started empty), while the flags map ends up holding the key whenever any
answer used it. -/
theorem engine_flags_priority (props : List (String × PropSchema))
    (fl0 pu0 answers : List (String × Value)) (k : String)
    (hk : (alookup nxf_flag_properties k).isSome) :
    (∃ g2 rest, merge_nxf_flag_schema props
        = ("Nextflow command-line flags", g2) :: rest) ∧
    alookup (split_answers fl0 pu0 answers).2 k = alookup pu0 k ∧
    (pu0 = [] → ∀ v, (k, v) ∉ (split_answers fl0 pu0 answers).2) ∧
    (∀ a, (k, a) ∈ answers → (alookup (split_answers fl0 pu0 answers).1 k).isSome) := by
  have hkg : k ≠ "Nextflow command-line flags" := by
    intro he
    rw [he] at hk
    exact absurd hk (by decide)
  have hpart2 : ∀ (fl0 pu0 : List (String × Value)),
      alookup (split_answers fl0 pu0 answers).2 k = alookup pu0 k := by
    induction answers with
    | nil => exact fun fl0 pu0 => rfl
    | cons p ps ih =>
      intro fl0 pu0
      by_cases h1 : p.1 = "Nextflow command-line flags"
      · rw [show split_answers fl0 pu0 (p :: ps) = split_answers fl0 pu0 ps from by
          unfold split_answers
          rw [List.foldl_cons, if_pos h1]]
        exact ih fl0 pu0
      · by_cases h2 : (alookup nxf_flag_properties p.1).isSome
        · rw [show split_answers fl0 pu0 (p :: ps)
              = split_answers (dictInsert fl0 p.1 p.2) pu0 ps from by
            unfold split_answers
            rw [List.foldl_cons, if_neg h1, if_pos h2]]
          exact ih _ pu0
        · rw [show split_answers fl0 pu0 (p :: ps)
              = split_answers fl0 (dictInsert pu0 p.1 p.2) ps from by
            unfold split_answers
            rw [List.foldl_cons, if_neg h1, if_neg h2]]
          rw [ih fl0 _]
          refine alookup_dictInsert_ne pu0 k p.1 p.2 ?_
          intro he
          rw [he] at hk
          exact h2 hk
  refine ⟨dictUpdate_head_key _ props _ _, hpart2 fl0 pu0, ?_, ?_⟩
  · intro hpu0 v
    subst hpu0
    exact alookup_eq_none_not_mem _ k (by rw [hpart2 fl0 []]; rfl) v
  · intro a
    clear hpart2
    induction answers generalizing fl0 pu0 with
    | nil => intro h; simp at h
    | cons p ps ih =>
      intro hmem
      rcases List.mem_cons.mp hmem with hka | hka
      · have hp1 : p.1 = k := (congrArg Prod.fst hka).symm
        have h1 : ¬p.1 = "Nextflow command-line flags" := by rw [hp1]; exact hkg
        have h2 : (alookup nxf_flag_properties p.1).isSome := by rw [hp1]; exact hk
        rw [show split_answers fl0 pu0 (p :: ps)
            = split_answers (dictInsert fl0 p.1 p.2) pu0 ps from by
          unfold split_answers
          rw [List.foldl_cons, if_neg h1, if_pos h2]]
        refine split_answers_flag_isSome ps _ pu0 k ?_
        rw [hp1, alookup_dictInsert_self]
        rfl
      · by_cases h1 : p.1 = "Nextflow command-line flags"
        · rw [show split_answers fl0 pu0 (p :: ps) = split_answers fl0 pu0 ps from by
            unfold split_answers
            rw [List.foldl_cons, if_pos h1]]
          exact ih fl0 pu0 hka
        · by_cases h2 : (alookup nxf_flag_properties p.1).isSome
          · rw [show split_answers fl0 pu0 (p :: ps)
                = split_answers (dictInsert fl0 p.1 p.2) pu0 ps from by
              unfold split_answers
              rw [List.foldl_cons, if_neg h1, if_pos h2]]
            exact ih _ pu0 hka
          · rw [show split_answers fl0 pu0 (p :: ps)
                = split_answers fl0 (dictInsert pu0 p.1 p.2) ps from by
              unfold split_answers
              rw [List.foldl_cons, if_neg h1, if_neg h2]]
            exact ih fl0 _ hka

/-- Witness for C8 at a concrete answer set mixing an engine flag and a
workflow parameter. -/
theorem engine_flags_priority_witness :
    split_answers [] [] [("-resume", Value.vbool true), ("threads", Value.vint 4)]
      = ([("-resume", Value.vbool true)], [("threads", Value.vint 4)]) ∧
    alookup (split_answers [] [] [("-resume", Value.vbool true), ("threads", Value.vint 4)]).2
        "-resume" = none ∧
    (alookup (split_answers [] [] [("-resume", Value.vbool true), ("threads", Value.vint 4)]).1
        "-resume").isSome ∧
    ("-resume", Value.vbool true)
      ∉ (split_answers [] [] [("-resume", Value.vbool true), ("threads", Value.vint 4)]).2 :=
  have h := engine_flags_priority [] [] []
    [("-resume", Value.vbool true), ("threads", Value.vint 4)] "-resume" (by decide)
  ⟨rfl, h.2.1, h.2.2.2 (Value.vbool true) (by decide),
   h.2.2.1 rfl (Value.vbool true)⟩

end NfLaunch
